import Mathlib

/-!
Verification of the student-expense-tracker core (src/app.py).

The program is a Streamlit dashboard over a single CSV file
(`expenses.csv`).  The persistence layer and aggregation logic are
embedded shallowly:

* an `Expense` record mirrors the dict `{"Date": …, "Category": …,
  "Amount": …}` built in `main` (app.py lines 90–94); the `Amount`
  Python float is modelled as an exact rational, matching the spec's
  "decimal currency value";
* the file system state is `Store := Option (List Expense)`:
  `none` means `expenses.csv` does not exist, `some l` means the file
  exists and parses to the record list `l` (in file order);
* `load_expenses` mirrors app.py lines 22–30 (`pd.read_csv` when the
  file exists, otherwise an empty DataFrame with the three named
  columns);
* `save_expense` mirrors app.py lines 33–38 (load, concat one row,
  rewrite the whole file);
* `total_spent` mirrors line 102 (`df["Amount"].sum() if not df.empty
  else 0.0`);
* `remaining` mirrors line 103 (`budget - total_spent`);
* `by_category` mirrors lines 139–145 / 44
  (`df.groupby("Category")["Amount"].sum()`): one entry per distinct
  category string occurring in the rows, holding the sum of the
  amounts of the rows whose `Category` equals it exactly;
* `clear` mirrors lines 151–152 (`os.remove(CSV_FILE)`), which fails
  with a file-not-found error exactly when the file is absent;
* `add_expense` mirrors the "Add Expense" handler, lines 85–96:
  `amount <= 0` is rejected with a validation error and no state
  change, otherwise the record is saved.
-/

/-- One expense record: the dict `{"Date", "Category", "Amount"}`
built in `main` (app.py lines 90–94).  Date and category are the
strings persisted to the CSV; the amount is modelled exactly. -/
structure Expense where
  date : String
  category : String
  amount : ℚ
deriving Repr, DecidableEq

/-- The file-system state of `expenses.csv`: `none` if the file does
not exist, `some l` if it exists and parses to the record list `l`. -/
abbrev Store := Option (List Expense)

/-- An in-memory DataFrame: named columns plus the parsed rows. -/
structure DataFrame where
  columns : List String
  rows : List Expense
deriving Repr, DecidableEq

/-- The header written by `df.to_csv` / expected by `pd.read_csv`. -/
def schema : List String := ["Date", "Category", "Amount"]

/-- Model of `load_expenses` (app.py lines 22–30): if the file
exists, parse it; otherwise return an empty DataFrame with the three
columns. -/
def load_expenses : Store → DataFrame
  | none => ⟨schema, []⟩
  | some l => ⟨schema, l⟩

/-- Model of `save_expense` (app.py lines 33–38): load whatever
exists, append the one new row, rewrite the whole file. -/
def save_expense (e : Expense) (s : Store) : Store :=
  some ((load_expenses s).rows ++ [e])

/-- A sequence of `save_expense` calls, oldest first. -/
def append_all (es : List Expense) (s : Store) : Store :=
  es.foldl (fun s e => save_expense e s) s

/-- Model of `total_spent` (app.py line 102):
`df["Amount"].sum() if not df.empty else 0.0`. -/
def total_spent (df : DataFrame) : ℚ :=
  if df.rows.isEmpty then 0 else (df.rows.map Expense.amount).sum

/-- Model of `remaining` (app.py line 103): `budget - total_spent`. -/
def remaining (budget total : ℚ) : ℚ := budget - total

/-- Model of `by_category` (app.py lines 44 and 139–145):
`df.groupby("Category")["Amount"].sum()` — one entry per distinct
category string occurring in the rows, mapped to the sum of the
amounts of exactly the rows whose category equals it. -/
def by_category (df : DataFrame) : List (String × ℚ) :=
  ((df.rows.map Expense.category).dedup).map fun c =>
    (c, ((df.rows.filter fun e => e.category == c).map Expense.amount).sum)

/-- Errors surfaced by the app: a rejected add (amount ≤ 0, app.py
line 86) and `os.remove` on a missing file (app.py line 152). -/
inductive AppError where
  | validation
  | notFound
deriving Repr, DecidableEq

/-- Model of `clear` (app.py lines 151–152): `os.remove(CSV_FILE)`
deletes the file when it exists and raises `FileNotFoundError` when
it does not. -/
def clear : Store → Except AppError Store
  | none => .error .notFound
  | some _ => .ok none

/-- The "Add Expense" handler (app.py lines 85–96): reject
`amount <= 0` with an error message and no write, otherwise build the
record and `save_expense` it.  Returns the surfaced error (if any)
together with the resulting file-system state. -/
def add_expense (d c : String) (amount : ℚ) (s : Store) :
    Option AppError × Store :=
  if amount ≤ 0 then (some .validation, s)
  else (none, save_expense ⟨d, c, amount⟩ s)

/-! ### Basic lemmas -/

lemma load_expenses_rows_none : (load_expenses none).rows = [] := rfl

lemma load_expenses_rows_some (l : List Expense) :
    (load_expenses (some l)).rows = l := rfl

lemma save_expense_rows (e : Expense) (s : Store) :
    (load_expenses (save_expense e s)).rows = (load_expenses s).rows ++ [e] := by
  cases s <;> rfl

lemma total_spent_eq_sum (df : DataFrame) :
    total_spent df = (df.rows.map Expense.amount).sum := by
  unfold total_spent
  cases h : df.rows.isEmpty
  · simp [h]
  · simp [List.isEmpty_iff.mp h]

lemma append_all_rows (es : List Expense) (s : Store) :
    (load_expenses (append_all es s)).rows = (load_expenses s).rows ++ es := by
  induction es generalizing s with
  | nil => simp [append_all]
  | cons e es ih =>
      have : append_all (e :: es) s = append_all es (save_expense e s) := rfl
      rw [this, ih, save_expense_rows]
      simp

lemma sum_amount_filter_partition (p : Expense → Bool) (l : List Expense) :
    ((l.filter p).map Expense.amount).sum +
      ((l.filter fun e => !p e).map Expense.amount).sum =
      (l.map Expense.amount).sum := by
  induction l with
  | nil => simp
  | cons a l ih =>
      by_cases hpa : p a = true
      · simp [List.filter_cons, hpa]
        linarith [ih]
      · have hpa' : p a = false := by simpa using hpa
        simp [List.filter_cons, hpa']
        linarith [ih]

lemma sum_by_fibers (cats : List String) (l : List Expense)
    (hnd : cats.Nodup) (hcov : ∀ e ∈ l, e.category ∈ cats) :
    (cats.map fun c =>
        ((l.filter fun e => e.category == c).map Expense.amount).sum).sum =
      (l.map Expense.amount).sum := by
  induction cats generalizing l with
  | nil =>
      have hl : l = [] := by
        rw [List.eq_nil_iff_forall_not_mem]
        intro e he
        exact absurd (hcov e he) (List.not_mem_nil _)
      subst hl
      simp
  | cons c cs ih =>
      have hc : c ∉ cs := (List.nodup_cons.mp hnd).1
      have hcs : cs.Nodup := (List.nodup_cons.mp hnd).2
      have hcov' : ∀ e ∈ l.filter fun e => !(e.category == c),
          e.category ∈ cs := by
        intro e he
        rw [List.mem_filter] at he
        have h1 := hcov e he.1
        have h2 : e.category ≠ c := by
          intro hEq
          rw [hEq] at he
          simp at he
        rcases List.mem_cons.mp h1 with h | h
        · exact absurd h h2
        · exact h
      have hmap : ∀ c' ∈ cs,
          ((l.filter fun e => e.category == c').map Expense.amount).sum =
          (((l.filter fun e => !(e.category == c)).filter
              fun e => e.category == c').map Expense.amount).sum := by
        intro c' hc'
        have hne : c' ≠ c := fun h => hc (h ▸ hc')
        rw [List.filter_filter]
        congr 1
        congr 1
        apply List.filter_congr
        intro e _
        by_cases h : e.category = c'
        · simp [h, hne]
        · simp [h]
      simp only [List.map_cons, List.sum_cons]
      rw [List.map_congr_left hmap,
        ih (l.filter fun e => !(e.category == c)) hcs hcov']
      exact sum_amount_filter_partition (fun e => e.category == c) l

lemma by_category_keys_eq (df : DataFrame) :
    (by_category df).map Prod.fst = (df.rows.map Expense.category).dedup := by
  unfold by_category
  rw [List.map_map]
  exact List.map_id' _

/-! ### Claim theorems -/

/-- C1: starting from an empty store, after appending records with
non-negative amounts a₁…aₙ in sequence, `total_spent` of the loaded
collection equals the exact sum a₁+…+aₙ; for the empty sequence this
total is 0. -/
theorem total_spent_after_appends (es : List Expense)
    (hnn : ∀ e ∈ es, 0 ≤ e.amount) :
    total_spent (load_expenses (append_all es none)) =
      (es.map Expense.amount).sum := by
  rw [total_spent_eq_sum, append_all_rows, load_expenses_rows_none]
  simp

/-- Witness for C1: two concrete appends from the spec's scenario sum
to 200, and the empty sequence gives 0. -/
theorem total_spent_after_appends_witness :
    (∀ e ∈ [⟨"2024-01-05", "Food", 120⟩, ⟨"2024-01-06", "Travel", 80⟩],
        0 ≤ Expense.amount e) ∧
    total_spent (load_expenses (append_all
      [⟨"2024-01-05", "Food", 120⟩, ⟨"2024-01-06", "Travel", 80⟩] none)) = 200 ∧
    total_spent (load_expenses (append_all [] none)) = 0 := by
  have hnn : ∀ e ∈ [(⟨"2024-01-05", "Food", 120⟩ : Expense),
      ⟨"2024-01-06", "Travel", 80⟩], 0 ≤ Expense.amount e := by
    intro e he
    rcases List.mem_cons.mp he with h | h
    · subst h; norm_num
    · rcases List.mem_cons.mp h with h | h
      · subst h; norm_num
      · exact absurd h (List.not_mem_nil e)
  refine ⟨hnn, ?_, ?_⟩
  · rw [total_spent_after_appends _ hnn]
    simp only [List.map_cons, List.map_nil, List.sum_cons, List.sum_nil]
    norm_num
  · rw [total_spent_after_appends [] (by intro e he; exact absurd he (List.not_mem_nil e))]
    simp

/-- C2: appending a record and loading yields a sequence whose last
element is the appended record and whose length is one more than
before the append. -/
theorem save_then_load_last_and_length (e : Expense) (s : Store) :
    (load_expenses (save_expense e s)).rows.getLast? = some e ∧
    (load_expenses (save_expense e s)).rows.length =
      (load_expenses s).rows.length + 1 := by
  rw [save_expense_rows]
  constructor
  · exact List.getLast?_concat _
  · simp

/-- C4: `remaining budget total` equals budget − total; it is negative
iff total > budget and zero iff total = budget. -/
theorem remaining_spec (budget total : ℚ) :
    remaining budget total = budget - total ∧
    (remaining budget total < 0 ↔ total > budget) ∧
    (remaining budget total = 0 ↔ total = budget) := by
  refine ⟨rfl, ?_, ?_⟩
  · unfold remaining
    constructor
    · intro h; linarith
    · intro h; linarith
  · unfold remaining
    constructor
    · intro h; linarith
    · intro h; linarith

/-- C7: when no file exists, `load_expenses` returns (without any
error) an empty sequence whose schema still has the three named
columns Date, Category, Amount. -/
theorem load_expenses_missing_file :
    (load_expenses none).rows = [] ∧
    (load_expenses none).columns = ["Date", "Category", "Amount"] :=
  ⟨rfl, rfl⟩

/-- C3: the per-category totals produced by `by_category`, summed over
all categories in the resulting mapping, equal `total_spent` of the
same record sequence. -/
theorem by_category_sums_to_total (df : DataFrame) :
    ((by_category df).map Prod.snd).sum = total_spent df := by
  rw [total_spent_eq_sum]
  unfold by_category
  rw [List.map_map]
  have hcomp : (Prod.snd ∘ fun c =>
      (c, ((df.rows.filter fun e => e.category == c).map Expense.amount).sum)) =
      fun c => ((df.rows.filter fun e => e.category == c).map Expense.amount).sum :=
    rfl
  rw [hcomp]
  refine sum_by_fibers _ _ (List.nodup_dedup _) ?_
  intro e he
  exact List.mem_dedup.mpr (List.mem_map_of_mem Expense.category he)

/-- C5 counterexample: in the state where the store file exists but
holds an empty collection (header only, zero records), `clear`
succeeds by deleting the file — it does not raise `NotFoundError`,
contradicting the claim for the "store is empty" case. -/
theorem clear_empty_file_no_error :
    clear (some ([] : List Expense)) = Except.ok none ∧
    clear (some ([] : List Expense)) ≠ Except.error AppError.notFound := by
  refine ⟨rfl, ?_⟩
  intro h
  simp [clear] at h

/-- C5 amended: `clear` raises the surfaced `NotFoundError` exactly
when the store file is absent; whenever the file exists — even when
it holds an empty collection — `clear` succeeds and deletes it (it is
never a silent no-op on an absent file). -/
theorem clear_error_iff_absent (s : Store) :
    (clear s = Except.error AppError.notFound ↔ s = none) ∧
    (∀ l : List Expense, clear (some l) = Except.ok none) := by
  refine ⟨?_, fun l => rfl⟩
  cases s with
  | none => simp [clear]
  | some l => simp [clear]

/-- C6: clearing a non-empty persisted collection succeeds, and
loading the resulting state yields an empty sequence. -/
theorem clear_then_load_empty (l : List Expense) (h : l ≠ []) :
    ∃ s' : Store, clear (some l) = Except.ok s' ∧
      (load_expenses s').rows = [] :=
  ⟨none, rfl, rfl⟩

/-- Witness for C6 at a concrete one-record collection. -/
theorem clear_then_load_empty_witness :
    ([(⟨"2024-01-05", "Food", 120⟩ : Expense)] ≠ []) ∧
    ∃ s' : Store, clear (some [⟨"2024-01-05", "Food", 120⟩]) = Except.ok s' ∧
      (load_expenses s').rows = [] :=
  ⟨List.cons_ne_nil _ _,
    clear_then_load_empty [⟨"2024-01-05", "Food", 120⟩] (List.cons_ne_nil _ _)⟩

/-- C8: `by_category` keys are exactly the category strings occurring
in the records (exact, case-sensitive string match, so a category
with zero records never appears), each key appears once, and each
key's value is the amount-sum of precisely the records whose category
string equals that key. -/
theorem by_category_exact_keys (df : DataFrame) (c : String) :
    (c ∈ (by_category df).map Prod.fst ↔ ∃ e ∈ df.rows, e.category = c) ∧
    ((by_category df).map Prod.fst).Nodup ∧
    ∀ p ∈ by_category df,
      p.2 = ((df.rows.filter fun e => e.category == p.1).map
        Expense.amount).sum := by
  refine ⟨?_, ?_, ?_⟩
  · rw [by_category_keys_eq, List.mem_dedup]
    constructor
    · intro h
      rcases List.mem_map.mp h with ⟨e, he, hec⟩
      exact ⟨e, he, hec⟩
    · rintro ⟨e, he, hec⟩
      exact List.mem_map.mpr ⟨e, he, hec⟩
  · rw [by_category_keys_eq]
    exact List.nodup_dedup _
  · intro p hp
    unfold by_category at hp
    rcases List.mem_map.mp hp with ⟨c', _, hpc⟩
    rw [← hpc]

/-- Witness for C8: the theorem instantiated at a concrete two-record
frame and the key "Food". -/
theorem by_category_exact_keys_witness :
    ("Food" ∈ (by_category ⟨schema, [⟨"2024-01-05", "Food", 120⟩,
        ⟨"2024-01-06", "Travel", 80⟩]⟩).map Prod.fst ↔
      ∃ e ∈ (⟨schema, [⟨"2024-01-05", "Food", 120⟩,
          ⟨"2024-01-06", "Travel", 80⟩]⟩ : DataFrame).rows,
        e.category = "Food") ∧
    ((by_category ⟨schema, [⟨"2024-01-05", "Food", 120⟩,
        ⟨"2024-01-06", "Travel", 80⟩]⟩).map Prod.fst).Nodup ∧
    ∀ p ∈ by_category ⟨schema, [⟨"2024-01-05", "Food", 120⟩,
        ⟨"2024-01-06", "Travel", 80⟩]⟩,
      p.2 = (((⟨schema, [⟨"2024-01-05", "Food", 120⟩,
          ⟨"2024-01-06", "Travel", 80⟩]⟩ : DataFrame).rows.filter
            fun e => e.category == p.1).map Expense.amount).sum :=
  by_category_exact_keys _ "Food"

/-- C9: a submitted expense with amount ≤ 0 is rejected with a
validation error before reaching the store, and the persisted state
is left completely unchanged. -/
theorem add_expense_rejected (d c : String) (a : ℚ) (s : Store)
    (h : a ≤ 0) :
    (add_expense d c a s).1 = some AppError.validation ∧
    (add_expense d c a s).2 = s := by
  unfold add_expense
  rw [if_pos h]
  exact ⟨rfl, rfl⟩

/-- Witness for C9: submitting amount = 0 against an empty store is
rejected and the store stays at length 0. -/
theorem add_expense_rejected_witness :
    ((0 : ℚ) ≤ 0) ∧
    (add_expense "2024-01-05" "Food" 0 none).1 = some AppError.validation ∧
    (add_expense "2024-01-05" "Food" 0 none).2 = none ∧
    (load_expenses (add_expense "2024-01-05" "Food" 0 none).2).rows.length
      = 0 := by
  have h := add_expense_rejected "2024-01-05" "Food" 0 none (le_refl 0)
  refine ⟨le_refl 0, h.1, h.2, ?_⟩
  rw [h.2]
  rfl

/-- C10: appending a record leaves every previously persisted record
unchanged and in place: the loaded sequence after the append, minus
its last element, is the loaded sequence from before. -/
theorem save_expense_frame (e : Expense) (s : Store) :
    (load_expenses (save_expense e s)).rows.dropLast =
      (load_expenses s).rows := by
  rw [save_expense_rows]
  exact List.dropLast_concat
